import Mathlib

/-!
Verification of `src/backup/scripts/backup_service.py` (auto-applai backup
scheduler daemon).

The Python program is shallowly embedded as follows:
* the process environment is a record of the three variables the program
  reads (`Env`), with `none` meaning "not set";
* `subprocess.run(..., timeout=300)` is modelled by `subprocessRun`, which
  maps a child-process behaviour (`ChildProcess`) to either a completed
  result or a timeout.  CPython's `subprocess.run` kills the child when the
  timeout fires before re-raising `TimeoutExpired`; the second component of
  the result records whether the child was forcibly terminated;
* `run_backup` is a pure function from the behaviour of one attempt
  (`AttemptEvent`: the child's behaviour, or an exception raised while
  launching/waiting) to its boolean result plus the log lines it emits.
  The source function catches `subprocess.TimeoutExpired` and `Exception`,
  so it is total here — totality of the Lean function is the image of
  "never raises past this boundary";
* `main`'s startup section (env check, `sys.exit(1)`, `int(...)` parse of
  `BACKUP_INTERVAL_HOURS`) is `startup`;
* the `while True:` loop is `loop`, a structural recursion over a finite
  list of externally chosen events (`LoopEvent`): a completed sleep followed
  by an attempt, a `KeyboardInterrupt` delivered at a suspension point, or
  an injected fault in the loop machinery.  Exhausting the event list means
  the daemon is still alive (`LoopExit.stillRunning`);
* `Path('/app/logs').mkdir(parents=True, exist_ok=True)` is modelled by
  `mkdir` over a list-of-paths filesystem.
-/

namespace BackupService

/-- Log levels used by the service (`logger.info` / `logger.warning` /
`logger.error`). -/
inductive LogLevel where
  | info
  | warning
  | error
  deriving DecidableEq, Repr

/-- One emitted log line: level and message. -/
structure LogEntry where
  level : LogLevel
  msg : String
  deriving DecidableEq, Repr

/-- The process environment restricted to the variables the program reads.
`none` models an unset variable; `some ""` models a variable set to the
empty string. -/
structure Env where
  GOOGLE_CLOUD_PROJECT : Option String
  GOOGLE_CLOUD_STORAGE_BUCKET : Option String
  BACKUP_INTERVAL_HOURS : Option String
  deriving DecidableEq, Repr

/-- `os.getenv(var)` (no default): the variable's value, or `none`. -/
def getenv (e : Env) (v : String) : Option String :=
  if v = "GOOGLE_CLOUD_PROJECT" then e.GOOGLE_CLOUD_PROJECT
  else if v = "GOOGLE_CLOUD_STORAGE_BUCKET" then e.GOOGLE_CLOUD_STORAGE_BUCKET
  else if v = "BACKUP_INTERVAL_HOURS" then e.BACKUP_INTERVAL_HOURS
  else none

/-- `os.getenv(var, default)`: the default is used only when the variable is
absent; an empty string set in the environment is returned as-is. -/
def getenvD (e : Env) (v d : String) : String :=
  (getenv e v).getD d

/-- Python truthiness of `os.getenv(var)` as used in
`if not os.getenv(var)`: `None` and the empty string are falsy, every other
string is truthy. -/
def pyTruthy : Option String → Bool
  | none => false
  | some s => !(s = "")

/-- `required_vars` from `main`. -/
def required_vars : List String :=
  ["GOOGLE_CLOUD_PROJECT", "GOOGLE_CLOUD_STORAGE_BUCKET"]

/-- `missing_vars = [var for var in required_vars if not os.getenv(var)]`. -/
def missing_vars (e : Env) : List String :=
  required_vars.filter (fun v => !pyTruthy (getenv e v))

/-- Value of a string of decimal digits. -/
def digitsToNat (l : List Char) : Nat :=
  l.foldl (fun a c => 10 * a + (c.toNat - '0'.toNat)) 0

/-- Leading and trailing whitespace of a character list, as stripped by
Python's `int` before parsing. -/
def stripWS (l : List Char) : List Char :=
  ((l.dropWhile Char.isWhitespace).reverse.dropWhile Char.isWhitespace).reverse

/-- Python's `int(s)` on a string: leading/trailing whitespace is stripped,
an optional sign is allowed, and the rest must be one or more decimal
digits; otherwise `ValueError` is raised (`none` here).  (Underscore digit
grouping, accepted by CPython, is not modelled; no claim depends on it.) -/
def pyInt (s : String) : Option Int :=
  match stripWS s.data with
  | [] => none
  | '+' :: ds =>
      if ds ≠ [] ∧ ds.all Char.isDigit then some (digitsToNat ds) else none
  | '-' :: ds =>
      if ds ≠ [] ∧ ds.all Char.isDigit then some (-(digitsToNat ds : Int)) else none
  | ds =>
      if ds.all Char.isDigit then some (digitsToNat ds) else none

/-- Behaviour of one launch of `/app/scripts/backup.sh`: how long it would
run (wall-clock seconds) and, if allowed to finish, its exit code and
captured output streams. -/
structure ChildProcess where
  duration : Nat
  returncode : Int
  stdout : String
  stderr : String
  deriving DecidableEq, Repr

/-- Result of `subprocess.run`: the child completed, or `TimeoutExpired`
was raised. -/
inductive ExecResult where
  | completed (returncode : Int) (stdout stderr : String)
  | timedOut
  deriving DecidableEq, Repr

/-- `subprocess.run(['/app/scripts/backup.sh'], capture_output=True,
text=True, timeout=300)`: if the child needs longer than `timeout` seconds
it is forcibly killed and `TimeoutExpired` raised (second component `true`
records the kill); otherwise the completed result is returned. -/
def subprocessRun (timeout : Nat) (p : ChildProcess) : ExecResult × Bool :=
  if timeout < p.duration then (.timedOut, true)
  else (.completed p.returncode p.stdout p.stderr, false)

/-- What the world does during one `run_backup` invocation: either the
subprocess machinery runs a child with the given behaviour, or some
exception (caught by the source's `except Exception`) is raised while
launching/waiting on it. -/
inductive AttemptEvent where
  | proc (p : ChildProcess)
  | raise (msg : String)
  deriving DecidableEq, Repr

/-- `run_backup` from the source: returns `True` only when the child
completed with return code 0 (the final `return True` is reached);
returns `False` on a nonzero code, on `TimeoutExpired`, or on any other
exception, logging each outcome.  `KeyboardInterrupt` is a `BaseException`
in Python and is NOT caught by `except Exception`; it is therefore not an
`AttemptEvent` but a `LoopEvent.interrupt` below. -/
def run_backup (a : AttemptEvent) : Bool × List LogEntry :=
  match a with
  | .raise msg =>
      (false, [⟨.info, "Starting scheduled backup..."⟩,
               ⟨.error, "Unexpected error during backup: " ++ msg⟩])
  | .proc p =>
      match (subprocessRun 300 p).fst with
      | .timedOut =>
          (false, [⟨.info, "Starting scheduled backup..."⟩,
                   ⟨.error, "Backup timed out after 5 minutes"⟩])
      | .completed rc out err =>
          if rc = 0 then
            (true, [⟨.info, "Starting scheduled backup..."⟩,
                    ⟨.info, "Backup completed successfully"⟩,
                    ⟨.info, "Backup output: " ++ out⟩])
          else
            (false, [⟨.info, "Starting scheduled backup..."⟩,
                     ⟨.error, "Backup failed with return code " ++ toString rc⟩,
                     ⟨.error, "Backup error: " ++ err⟩])

/-- Outcome of `main`'s startup section (everything before the initial
backup): `sys.exit(1)` on missing variables, an uncaught `ValueError` from
`int(...)` on an unparsable interval, or entry into the service body with
the resolved interval (hours, and seconds = hours * 3600). -/
inductive StartupResult where
  | exited (code : Nat)
  | crashed (msg : String)
  | entered (hours : Int) (secs : Int)
  deriving DecidableEq, Repr

/-- Startup section of `main`: check `required_vars` (exiting 1 if any is
missing or empty), then resolve `BACKUP_INTERVAL_HOURS` with
`int(os.getenv('BACKUP_INTERVAL_HOURS', '24'))`.  The directory-creation
step between the two never raises under the model (see `mkdir`) and leaves
no trace here. -/
def startup (e : Env) : StartupResult :=
  if missing_vars e ≠ [] then .exited 1
  else
    match pyInt (getenvD e "BACKUP_INTERVAL_HOURS" "24") with
    | none => .crashed "ValueError: invalid literal for int() with base 10"
    | some h => .entered h (h * 3600)

/-- What the world does during one iteration of the `while True:` loop:
the sleep completes and `run_backup` runs with the given attempt behaviour;
or a `KeyboardInterrupt` is delivered at a suspension point (during
`time.sleep` or during the attempt — `run_backup`'s `except Exception`
does not catch it); or the loop machinery itself raises an unexpected
`Exception`. -/
inductive LoopEvent where
  | attempt (a : AttemptEvent)
  | interrupt (duringSleep : Bool)
  | fault (msg : String)
  deriving DecidableEq, Repr

/-- Observable shape of one loop iteration: a full-interval sleep followed
by an attempt with the given result; the clean shutdown branch; or the
fault branch with its 60-second backoff sleep. -/
inductive IterAction where
  | ran (sleptSeconds : Int) (success : Bool)
  | shutdown
  | backoff (sleptSeconds : Nat)
  deriving DecidableEq, Repr

/-- How the loop left (or did not leave) after consuming the supplied
events: `cleanBreak` is the `break` in the `KeyboardInterrupt` handler —
the only way out of the loop; `stillRunning` means every supplied event
was consumed and the daemon is still alive. -/
inductive LoopExit where
  | cleanBreak
  | stillRunning
  deriving DecidableEq, Repr

/-- Trace of the loop: the per-iteration actions, the log lines emitted,
and how/whether it exited. -/
structure LoopTrace where
  actions : List IterAction
  logs : List LogEntry
  exit : LoopExit
  deriving DecidableEq, Repr

/-- The `while True:` loop of `main`, one recursive step per supplied
event.  `hours`/`secs` are the resolved interval (used in the sleep log
line and the sleep duration). -/
def loop (hours : Int) (secs : Int) : List LoopEvent → LoopTrace
  | [] => ⟨[], [], .stillRunning⟩
  | .interrupt _ :: _ =>
      ⟨[.shutdown], [⟨.info, "Backup service stopped by user"⟩], .cleanBreak⟩
  | .attempt a :: rest =>
      let r := run_backup a
      let t := loop hours secs rest
      ⟨.ran secs r.fst :: t.actions,
       (⟨.info, "Sleeping for " ++ toString hours ++ " hours until next backup..."⟩
          :: r.snd
          ++ (if r.fst then [] else [⟨.warning, "Backup failed, will retry at next interval"⟩]))
         ++ t.logs,
       t.exit⟩
  | .fault m :: rest =>
      let t := loop hours secs rest
      ⟨.backoff 60 :: t.actions,
       ⟨.error, "Unexpected error in backup service: " ++ m⟩ :: t.logs,
       t.exit⟩

/-- What the world does during the initial backup (`run_backup()` called
before the loop, outside any `try`): the attempt runs, or a
`KeyboardInterrupt` is delivered while it runs. -/
inductive InitialEvent where
  | attempt (a : AttemptEvent)
  | interrupt
  deriving DecidableEq, Repr

/-- How the whole process ends (or does not): `exited c` is `sys.exit(c)`;
`returned` means `main` returned normally (only via the loop's `break`),
after which the `if __name__` guard falls through and the process exits
with code 0; `uncaught m` is an exception propagating out of `main`
(non-zero abnormal termination, no shutdown log); `running` means the
daemon is still alive after the supplied events. -/
inductive MainResult where
  | exited (code : Nat)
  | returned
  | uncaught (msg : String)
  | running
  deriving DecidableEq, Repr

/-- Count of the loop iterations that completed a `run_backup` call. -/
def countAttempts (acts : List IterAction) : Nat :=
  (acts.filter fun a => match a with | .ran _ _ => true | _ => false).length

/-- Full trace of `main`: number of completed `run_backup` invocations,
loop actions, log lines, and the process outcome. -/
structure MainTrace where
  attempts : Nat
  actions : List IterAction
  logs : List LogEntry
  result : MainResult
  deriving DecidableEq, Repr

/-- `main` from the source: startup checks, initial backup, then the loop.
A `KeyboardInterrupt` during the initial backup is outside the loop's
`try`/`except` and propagates out of `main` uncaught. -/
def main (e : Env) (init : InitialEvent) (evs : List LoopEvent) : MainTrace :=
  let startLogs : List LogEntry := [⟨.info, "Starting Auto-Apply backup service..."⟩]
  match startup e with
  | .exited c =>
      ⟨0, [],
       startLogs ++ [⟨.error, "Missing required environment variables: " ++ toString (missing_vars e)⟩],
       .exited c⟩
  | .crashed m => ⟨0, [], startLogs, .uncaught m⟩
  | .entered h secs =>
      let cfgLogs : List LogEntry :=
        startLogs ++
          [⟨.info, "Backup service configured with " ++ toString h ++ " hour interval"⟩,
           ⟨.info, "Running initial backup..."⟩]
      match init with
      | .interrupt => ⟨0, [], cfgLogs, .uncaught "KeyboardInterrupt"⟩
      | .attempt a0 =>
          let r0 := run_backup a0
          let t := loop h secs evs
          ⟨1 + countAttempts t.actions, t.actions,
           cfgLogs ++ r0.snd ++ t.logs,
           match t.exit with
           | .cleanBreak => .returned
           | .stillRunning => .running⟩

/-- A filesystem as the list of directories that exist; a directory is its
path as a list of segments. -/
def addDir (fs : List (List String)) (d : List String) : List (List String) :=
  if d ∈ fs then fs else fs ++ [d]

/-- The nonempty prefixes of a path, shortest first: the chain of
directories `mkdir(parents=True)` creates as needed. -/
def ancestors (p : List String) : List (List String) :=
  (List.range p.length).map (fun i => p.take (i + 1))

/-- `Path(p).mkdir(parents=True, exist_ok=exist_ok)`: creates every missing
segment of the path; with `exist_ok=False` it raises `FileExistsError`
when the full path already exists, with `exist_ok=True` (the source's
invocation, `Path('/app/logs').mkdir(parents=True, exist_ok=True)`) it
never errors. -/
def mkdir (fs : List (List String)) (p : List String) (exist_ok : Bool) :
    Except String (List (List String)) :=
  if p ∈ fs ∧ exist_ok = false then .error "FileExistsError"
  else .ok ((ancestors p).foldl addDir fs)

/-! ## Helper lemmas -/

theorem missing_vars_eq (e : Env) :
    missing_vars e =
      (if pyTruthy e.GOOGLE_CLOUD_PROJECT then [] else ["GOOGLE_CLOUD_PROJECT"]) ++
      (if pyTruthy e.GOOGLE_CLOUD_STORAGE_BUCKET then [] else ["GOOGLE_CLOUD_STORAGE_BUCKET"]) := by
  simp only [missing_vars, required_vars, List.filter, getenv]
  norm_num
  by_cases h1 : pyTruthy e.GOOGLE_CLOUD_PROJECT <;>
    by_cases h2 : pyTruthy e.GOOGLE_CLOUD_STORAGE_BUCKET <;>
      simp [h1, h2]

theorem main_exits_one_of_untruthy (e : Env) (init : InitialEvent) (evs : List LoopEvent)
    (h : pyTruthy e.GOOGLE_CLOUD_PROJECT = false ∨
         pyTruthy e.GOOGLE_CLOUD_STORAGE_BUCKET = false) :
    (main e init evs).result = .exited 1 ∧ (main e init evs).attempts = 0 := by
  have hne : missing_vars e ≠ [] := by
    rw [missing_vars_eq]
    rcases h with h | h <;> simp [h]
  have hs : startup e = .exited 1 := by
    simp [startup, hne]
  simp [main, hs]

theorem loop_interrupt_clean (hours secs : Int) (evs : List LoopEvent) (d : Bool)
    (hm : LoopEvent.interrupt d ∈ evs) :
    (loop hours secs evs).exit = .cleanBreak ∧
    LogEntry.mk .info "Backup service stopped by user" ∈ (loop hours secs evs).logs := by
  induction evs with
  | nil => cases hm
  | cons ev rest ih =>
    cases ev with
    | interrupt d0 => simp [loop]
    | attempt a =>
      have hm0 : LoopEvent.interrupt d ∈ rest := by
        rcases List.mem_cons.mp hm with h | h
        · cases h
        · exact h
      have := ih hm0
      simp [loop, this.1, this.2]
    | fault m =>
      have hm0 : LoopEvent.interrupt d ∈ rest := by
        rcases List.mem_cons.mp hm with h | h
        · cases h
        · exact h
      have := ih hm0
      simp [loop, this.1, this.2]

theorem loop_map_attempt (hours secs : Int) (evs : List AttemptEvent) :
    loop hours secs (evs.map .attempt) =
      ⟨evs.map (fun a => .ran secs (run_backup a).fst),
       (evs.map fun a =>
          (LogEntry.mk .info ("Sleeping for " ++ toString hours ++ " hours until next backup...")
            :: (run_backup a).snd
            ++ (if (run_backup a).fst then []
                else [LogEntry.mk .warning "Backup failed, will retry at next interval"]))).flatten,
       .stillRunning⟩ := by
  induction evs with
  | nil => rfl
  | cons a l ih => simp [loop, ih]

theorem countAttempts_ran (secs : Int) (l : List AttemptEvent) :
    countAttempts (l.map fun a => .ran secs (run_backup a).fst) = l.length := by
  induction l with
  | nil => rfl
  | cons a l ih => simpa [countAttempts, List.filter] using ih

theorem loop_replicate_fault (hours secs : Int) (n : Nat) (m : String) :
    loop hours secs (List.replicate n (.fault m)) =
      ⟨List.replicate n (.backoff 60),
       List.replicate n (LogEntry.mk .error ("Unexpected error in backup service: " ++ m)),
       .stillRunning⟩ := by
  induction n with
  | zero => rfl
  | succ k ih => simp [List.replicate_succ, loop, ih]

theorem mem_addDir_self (fs : List (List String)) (d : List String) :
    d ∈ addDir fs d := by
  unfold addDir
  split
  · assumption
  · simp

theorem mem_addDir_of_mem (fs : List (List String)) (d x : List String)
    (h : x ∈ fs) : x ∈ addDir fs d := by
  unfold addDir
  split
  · exact h
  · simp [h]

theorem addDir_of_mem (fs : List (List String)) (d : List String)
    (h : d ∈ fs) : addDir fs d = fs := by
  simp [addDir, h]

theorem mem_foldl_addDir_of_mem (l : List (List String)) (fs : List (List String))
    (x : List String) (h : x ∈ fs) : x ∈ l.foldl addDir fs := by
  induction l generalizing fs with
  | nil => exact h
  | cons a l ih => exact ih (addDir fs a) (mem_addDir_of_mem fs a x h)

theorem mem_foldl_addDir_of_mem_list (l : List (List String)) (fs : List (List String))
    (d : List String) (h : d ∈ l) : d ∈ l.foldl addDir fs := by
  induction l generalizing fs with
  | nil => cases h
  | cons a l ih =>
    rcases List.mem_cons.mp h with h | h
    · subst h
      exact mem_foldl_addDir_of_mem l (addDir fs d) d (mem_addDir_self fs d)
    · exact ih (addDir fs a) h

theorem foldl_addDir_id (l : List (List String)) (fs : List (List String))
    (h : ∀ d ∈ l, d ∈ fs) : l.foldl addDir fs = fs := by
  induction l generalizing fs with
  | nil => rfl
  | cons a l ih =>
    rw [List.foldl_cons, addDir_of_mem fs a (h a (by simp))]
    exact ih fs (fun d hd => h d (by simp [hd]))

theorem configured_msg_ne_shutdown (h : Int) :
    "Backup service configured with " ++ toString h ++ " hour interval" ≠
      "Backup service stopped by user" := by
  intro heq
  have hl := congrArg String.length heq
  have e1 : ("Backup service configured with ").length = 31 := rfl
  have e2 : (" hour interval").length = 14 := rfl
  have e3 : ("Backup service stopped by user").length = 30 := rfl
  simp [String.length_append, e1, e2, e3] at hl
  omega

/-! ## Claim theorems -/

/-- C1: If either required environment variable (GOOGLE_CLOUD_PROJECT or
GOOGLE_CLOUD_STORAGE_BUCKET) is missing (falsy) at startup, the process
terminates with exit code 1 and zero backup attempts are executed
(`run_backup` is never invoked). -/
theorem C1_missing_env_exits_one (e : Env) (init : InitialEvent) (evs : List LoopEvent)
    (h : pyTruthy e.GOOGLE_CLOUD_PROJECT = false ∨
         pyTruthy e.GOOGLE_CLOUD_STORAGE_BUCKET = false) :
    (main e init evs).result = .exited 1 ∧ (main e init evs).attempts = 0 :=
  main_exits_one_of_untruthy e init evs h

theorem C1_witness :
    pyTruthy (Env.mk none (some "b") none).GOOGLE_CLOUD_PROJECT = false ∧
    (main ⟨none, some "b", none⟩ .interrupt []).result = .exited 1 ∧
    (main ⟨none, some "b", none⟩ .interrupt []).attempts = 0 :=
  ⟨by decide, C1_missing_env_exits_one ⟨none, some "b", none⟩ .interrupt [] (Or.inl (by decide))⟩

/-- C2: `run_backup` returns `True` if and only if the executor subprocess
completes (within the 300-second bound) with exit code 0; it returns
`False` on a nonzero exit code, on timeout, or on any exception while
launching/waiting; being a total function, it never raises to its
caller. -/
theorem C2_run_backup_true_iff (a : AttemptEvent) :
    (run_backup a).fst = true ↔
      ∃ p : ChildProcess, a = .proc p ∧ p.duration ≤ 300 ∧ p.returncode = 0 := by
  cases a with
  | raise m => simp [run_backup]
  | proc p =>
    by_cases hd : 300 < p.duration
    · have hfst : (run_backup (.proc p)).fst = false := by
        simp [run_backup, subprocessRun, hd]
      rw [hfst]
      simp only [Bool.false_eq_true, false_iff]
      rintro ⟨q, hq, hdur, _⟩
      cases hq
      omega
    · by_cases hrc : p.returncode = 0
      · have hfst : (run_backup (.proc p)).fst = true := by
          simp [run_backup, subprocessRun, hd, hrc]
        rw [hfst]
        simp only [true_iff]
        exact ⟨p, rfl, by omega, hrc⟩
      · have hfst : (run_backup (.proc p)).fst = false := by
          simp [run_backup, subprocessRun, hd, hrc]
        rw [hfst]
        simp only [Bool.false_eq_true, false_iff]
        rintro ⟨q, hq, _, hz⟩
        cases hq
        exact absurd hz hrc

/-- C3: each attempt is bounded by the hard 300-second wall-clock limit:
when the child would run longer, `subprocess.run` kills it and raises
`TimeoutExpired`, the outcome is logged at ERROR level as a timeout, and
`run_backup` returns `False`. -/
theorem C3_timeout_bound (p : ChildProcess) (h : 300 < p.duration) :
    subprocessRun 300 p = (.timedOut, true) ∧
    (run_backup (.proc p)).fst = false ∧
    LogEntry.mk .error "Backup timed out after 5 minutes" ∈ (run_backup (.proc p)).snd := by
  have hs : subprocessRun 300 p = (.timedOut, true) := by
    simp [subprocessRun, h]
  refine ⟨hs, ?_, ?_⟩ <;> simp [run_backup, subprocessRun, h]

theorem C3_witness :
    300 < 301 ∧
    subprocessRun 300 ⟨301, 0, "", ""⟩ = (.timedOut, true) ∧
    (run_backup (.proc ⟨301, 0, "", ""⟩)).fst = false ∧
    LogEntry.mk .error "Backup timed out after 5 minutes" ∈
      (run_backup (.proc ⟨301, 0, "", ""⟩)).snd :=
  ⟨by decide, C3_timeout_bound ⟨301, 0, "", ""⟩ (by decide)⟩

/-- C9: a required environment variable set to the empty string is treated
exactly like a missing one — the check uses Python truthiness — so the
process terminates with exit code 1 and zero attempts are executed. -/
theorem C9_empty_env_like_missing (e : Env) (init : InitialEvent) (evs : List LoopEvent)
    (h : e.GOOGLE_CLOUD_PROJECT = some "" ∨ e.GOOGLE_CLOUD_STORAGE_BUCKET = some "") :
    pyTruthy (some "") = pyTruthy none ∧
    (main e init evs).result = .exited 1 ∧ (main e init evs).attempts = 0 := by
  refine ⟨by decide, ?_⟩
  apply main_exits_one_of_untruthy
  rcases h with h | h
  · exact Or.inl (by rw [h]; decide)
  · exact Or.inr (by rw [h]; decide)

theorem C9_witness :
    (Env.mk (some "") (some "b") none).GOOGLE_CLOUD_PROJECT = some "" ∧
    pyTruthy (some "") = pyTruthy none ∧
    (main ⟨some "", some "b", none⟩ .interrupt []).result = .exited 1 ∧
    (main ⟨some "", some "b", none⟩ .interrupt []).attempts = 0 :=
  ⟨rfl, C9_empty_env_like_missing ⟨some "", some "b", none⟩ .interrupt [] (Or.inl rfl)⟩

/-- C4: attempt outcome never changes the cadence: every loop iteration
sleeps exactly one full `runInterval` (`secs` seconds) before its attempt,
regardless of the success or failure of any previous attempt, and with a
deterministic event list of N elapsed intervals the service performs
exactly 1 initial attempt plus N further attempts. -/
theorem C4_fixed_cadence (e : Env) (h secs : Int) (a0 : AttemptEvent)
    (evs : List AttemptEvent) (hs : startup e = .entered h secs) :
    (main e (.attempt a0) (evs.map .attempt)).attempts = 1 + evs.length ∧
    (main e (.attempt a0) (evs.map .attempt)).actions
      = evs.map (fun a => .ran secs (run_backup a).fst) := by
  simp only [main, hs, loop_map_attempt, countAttempts_ran]
  exact ⟨trivial, trivial⟩

theorem C4_witness :
    startup ⟨some "p", some "b", some "1"⟩ = .entered 1 3600 ∧
    (main ⟨some "p", some "b", some "1"⟩
        (.attempt (.proc ⟨1, 0, "", ""⟩))
        ([AttemptEvent.proc ⟨1, 2, "", "e"⟩, AttemptEvent.proc ⟨5, 0, "ok", ""⟩].map .attempt)).attempts
      = 1 + 2 ∧
    (main ⟨some "p", some "b", some "1"⟩
        (.attempt (.proc ⟨1, 0, "", ""⟩))
        ([AttemptEvent.proc ⟨1, 2, "", "e"⟩, AttemptEvent.proc ⟨5, 0, "ok", ""⟩].map .attempt)).actions
      = [AttemptEvent.proc ⟨1, 2, "", "e"⟩, AttemptEvent.proc ⟨5, 0, "ok", ""⟩].map
          (fun a => .ran 3600 (run_backup a).fst) :=
  ⟨by decide,
   C4_fixed_cadence ⟨some "p", some "b", some "1"⟩ 1 3600 (.proc ⟨1, 0, "", ""⟩)
     [AttemptEvent.proc ⟨1, 2, "", "e"⟩, AttemptEvent.proc ⟨5, 0, "ok", ""⟩] (by decide)⟩

/-- C5: if the loop machinery raises an unexpected exception N times in a
row, the loop sleeps the fixed 60-second crash backoff after each fault and
the process is still alive (not terminated) after all N; no fault of this
category ever terminates the process. -/
theorem C5_crash_backoff_alive (e : Env) (h secs : Int) (a0 : AttemptEvent)
    (n : Nat) (m : String) (hs : startup e = .entered h secs) :
    (main e (.attempt a0) (List.replicate n (.fault m))).actions
      = List.replicate n (.backoff 60) ∧
    (main e (.attempt a0) (List.replicate n (.fault m))).result = .running := by
  simp only [main, hs, loop_replicate_fault]
  exact ⟨trivial, trivial⟩

theorem C5_witness :
    startup ⟨some "p", some "b", none⟩ = .entered 24 86400 ∧
    (main ⟨some "p", some "b", none⟩ (.attempt (.proc ⟨1, 0, "", ""⟩))
        (List.replicate 3 (.fault "boom"))).actions = List.replicate 3 (.backoff 60) ∧
    (main ⟨some "p", some "b", none⟩ (.attempt (.proc ⟨1, 0, "", ""⟩))
        (List.replicate 3 (.fault "boom"))).result = .running :=
  ⟨by decide,
   C5_crash_backoff_alive ⟨some "p", some "b", none⟩ 24 86400 (.proc ⟨1, 0, "", ""⟩)
     3 "boom" (by decide)⟩

/-- C6 counterexample: with `BACKUP_INTERVAL_HOURS="0"` (a non-positive
integer override) startup does NOT fail fast: the parse succeeds, the loop
is entered with `runInterval = 0`, and the daemon runs — refuting both the
fail-fast behaviour and the invariant `runInterval > 0` claimed for every
reachable loop state. -/
theorem C6_counterexample :
    startup ⟨some "p", some "b", some "0"⟩ = .entered 0 0 ∧
    (main ⟨some "p", some "b", some "0"⟩ (.attempt (.proc ⟨1, 0, "", ""⟩)) []).result
      = .running ∧
    ¬ ((0 : Int) > 0) := by
  refine ⟨by decide, by decide, by decide⟩

/-- C6 (amended): a non-integer `BACKUP_INTERVAL_HOURS` override makes
startup fail fast — `int(...)` raises an uncaught `ValueError` before the
loop is entered — but any integer override, including a non-positive one,
is accepted verbatim: startup enters the loop with `runInterval = h` hours,
so the invariant `runInterval > 0` does not hold for every reachable loop
state. -/
theorem C6_amended_interval_parse (e : Env) (s : String)
    (h1 : pyTruthy e.GOOGLE_CLOUD_PROJECT = true)
    (h2 : pyTruthy e.GOOGLE_CLOUD_STORAGE_BUCKET = true)
    (h3 : e.BACKUP_INTERVAL_HOURS = some s) :
    (pyInt s = none →
      startup e = .crashed "ValueError: invalid literal for int() with base 10") ∧
    (∀ h : Int, pyInt s = some h → startup e = .entered h (h * 3600)) := by
  have hmv : missing_vars e = [] := by
    rw [missing_vars_eq, h1, h2]
    rfl
  have hget : getenvD e "BACKUP_INTERVAL_HOURS" "24" = s := by
    simp [getenvD, getenv, h3]
  constructor
  · intro hp
    simp [startup, hmv, hget, hp]
  · intro h hp
    simp [startup, hmv, hget, hp]

theorem C6_amended_witness :
    pyTruthy (Env.mk (some "p") (some "b") (some "abc")).GOOGLE_CLOUD_PROJECT = true ∧
    pyTruthy (Env.mk (some "p") (some "b") (some "abc")).GOOGLE_CLOUD_STORAGE_BUCKET = true ∧
    (Env.mk (some "p") (some "b") (some "abc")).BACKUP_INTERVAL_HOURS = some "abc" ∧
    ((pyInt "abc" = none →
        startup ⟨some "p", some "b", some "abc"⟩
          = .crashed "ValueError: invalid literal for int() with base 10") ∧
     (∀ h : Int, pyInt "abc" = some h →
        startup ⟨some "p", some "b", some "abc"⟩ = .entered h (h * 3600))) :=
  ⟨by decide, by decide, rfl,
   C6_amended_interval_parse ⟨some "p", some "b", some "abc"⟩ "abc"
     (by decide) (by decide) rfl⟩

/-- C7: a KeyboardInterrupt delivered at any suspension point of the
steady-state loop — during the interval sleep or while an attempt runs
(the flag `d` distinguishes the two; the handling is identical) — stops
the loop cleanly: the shutdown message is logged, the loop exits via its
only normal exit path (`break`), and `main` returns normally so the
process exits with code 0. -/
theorem C7_interrupt_clean_shutdown (e : Env) (h secs : Int) (a0 : AttemptEvent)
    (evs : List LoopEvent) (d : Bool)
    (hs : startup e = .entered h secs) (hm : LoopEvent.interrupt d ∈ evs) :
    (main e (.attempt a0) evs).result = .returned ∧
    LogEntry.mk .info "Backup service stopped by user" ∈ (main e (.attempt a0) evs).logs := by
  have hl := loop_interrupt_clean h secs evs d hm
  constructor
  · simp [main, hs, hl.1]
  · simp only [main, hs]
    simp [hl.2]

theorem C7_witness :
    startup ⟨some "p", some "b", none⟩ = .entered 24 86400 ∧
    LoopEvent.interrupt true ∈ [LoopEvent.interrupt true] ∧
    (main ⟨some "p", some "b", none⟩ (.attempt (.proc ⟨1, 0, "", ""⟩))
        [LoopEvent.interrupt true]).result = .returned ∧
    LogEntry.mk .info "Backup service stopped by user" ∈
      (main ⟨some "p", some "b", none⟩ (.attempt (.proc ⟨1, 0, "", ""⟩))
        [LoopEvent.interrupt true]).logs :=
  ⟨by decide, by decide,
   C7_interrupt_clean_shutdown ⟨some "p", some "b", none⟩ 24 86400
     (.proc ⟨1, 0, "", ""⟩) [LoopEvent.interrupt true] true (by decide) (by decide)⟩

/-- C8: the startup directory-creation step
(`Path('/app/logs').mkdir(parents=True, exist_ok=True)`) is idempotent:
on any filesystem and for any path it succeeds, and running it a second
time succeeds again and leaves the directory state unchanged. -/
theorem C8_mkdir_idempotent (fs : List (List String)) (p : List String) :
    ∃ fs1, mkdir fs p true = .ok fs1 ∧ mkdir fs1 p true = .ok fs1 := by
  refine ⟨(ancestors p).foldl addDir fs, ?_, ?_⟩
  · simp [mkdir]
  · simp only [mkdir]
    rw [if_neg (by simp)]
    rw [foldl_addDir_id]
    intro d hd
    exact mem_foldl_addDir_of_mem_list (ancestors p) fs d hd

/-- C10: clean interrupt handling covers only the steady-state loop: a
KeyboardInterrupt arriving during the initial attempt — which runs before
the loop's try/except — propagates out of `main` uncaught, so the process
terminates without logging the shutdown message and not through the clean
exit-0 path. -/
theorem C10_initial_interrupt_uncaught (e : Env) (h secs : Int) (evs : List LoopEvent)
    (hs : startup e = .entered h secs) :
    (main e .interrupt evs).result = .uncaught "KeyboardInterrupt" ∧
    (main e .interrupt evs).result ≠ .returned ∧
    LogEntry.mk .info "Backup service stopped by user" ∉ (main e .interrupt evs).logs := by
  refine ⟨by simp [main, hs], by simp [main, hs], ?_⟩
  simp only [main, hs]
  intro hmem
  simp only [List.singleton_append, List.mem_cons, List.not_mem_nil, or_false] at hmem
  rcases hmem with h1 | h2 | h3
  · exact absurd (congrArg LogEntry.msg h1) (by decide)
  · exact absurd (congrArg LogEntry.msg h2) (configured_msg_ne_shutdown h).symm
  · exact absurd (congrArg LogEntry.msg h3) (by decide)

theorem C10_witness :
    startup ⟨some "p", some "b", none⟩ = .entered 24 86400 ∧
    ((main ⟨some "p", some "b", none⟩ .interrupt []).result = .uncaught "KeyboardInterrupt" ∧
     (main ⟨some "p", some "b", none⟩ .interrupt []).result ≠ .returned ∧
     LogEntry.mk .info "Backup service stopped by user" ∉
       (main ⟨some "p", some "b", none⟩ .interrupt []).logs) :=
  ⟨by decide,
   C10_initial_interrupt_uncaught ⟨some "p", some "b", none⟩ 24 86400 [] (by decide)⟩

end BackupService
